import Mathlib

/-!
Verification of the caddy-events-kafka module (module.go) against its
specification. The Go code is shallowly embedded: the KafkaHandler struct
becomes a Lean structure, Validate / Provision / Handle / UnmarshalCaddyfile
become Lean functions returning Except values, and the caddyfile Dispenser
is modelled as a list of tokens tagged with line numbers.
-/

/-- Embedding of the KafkaHandler configuration struct (module.go lines
25-37). Go's nil slice and empty slice both become the empty list; the
SASLAlgorithm string type is a plain String. The runtime fields (logger,
writer) carry no configuration and are omitted. -/
structure KafkaHandler where
  bootstrapServers : List String
  topic : String
  tlsEnabled : Bool
  tlsNoVerify : Bool
  saslAuth : Bool
  saslAlgorithm : String
  saslUsername : String
  saslPassword : String
deriving Repr, DecidableEq

/-- Zero value of KafkaHandler, as produced by Go's new(KafkaHandler) in
CaddyModule (module.go line 88). -/
def defaultHandler : KafkaHandler :=
  { bootstrapServers := []
    topic := ""
    tlsEnabled := false
    tlsNoVerify := false
    saslAuth := false
    saslAlgorithm := ""
    saslUsername := ""
    saslPassword := "" }

/-- Embedding of Validate (module.go lines 93-115). The Go code returns a
wrapped error or nil; we return the error message or ok. Note that the
empty-password branch (line 107) repeats the username message verbatim,
exactly as in the source. -/
def validate (h : KafkaHandler) : Except String Unit :=
  if h.bootstrapServers.length = 0 then
    Except.error "kafka bootstrap_servers missing"
  else if h.topic = "" then
    Except.error "kafka topic missing"
  else if h.saslAuth then
    if h.saslUsername = "" then
      Except.error "kafka missing sasl username"
    else if h.saslPassword = "" then
      Except.error "kafka missing sasl username"
    else if h.saslAlgorithm ≠ "sha256" ∧ h.saslAlgorithm ≠ "sha512" then
      Except.error "kafka invalid sasl algorithm"
    else
      Except.ok ()
  else
    Except.ok ()

/-- Modelled from the spec (section 3 invariant set): bootstrap_servers
non-empty; topic non-empty; if SASL enabled, username and password both
non-empty and algorithm in the set containing sha256 and sha512. This is the
spec-side predicate that validate is compared against. -/
def specInvariants (h : KafkaHandler) : Prop :=
  h.bootstrapServers ≠ [] ∧ h.topic ≠ "" ∧
    (h.saslAuth = true →
      h.saslUsername ≠ "" ∧ h.saslPassword ≠ "" ∧
        (h.saslAlgorithm = "sha256" ∨ h.saslAlgorithm = "sha512"))

instance (h : KafkaHandler) : Decidable (specInvariants h) := by
  unfold specInvariants
  infer_instance

/-- Boolean test that the first list of characters occurs at the start of
the second. -/
def charsStartWith : List Char → List Char → Bool
  | [], _ => true
  | _ :: _, [] => false
  | a :: as, b :: bs => a == b && charsStartWith as bs

/-- Boolean test that the first list of characters occurs contiguously
anywhere inside the second. -/
def charsContain (needle : List Char) : List Char → Bool
  | [] => charsStartWith needle []
  | hay@(_ :: rest) => charsStartWith needle hay || charsContain needle rest

/-- Boolean substring test on strings, used to state that no validation
message mentions the password. -/
def strContains (needle hay : String) : Bool :=
  charsContain needle.toList hay.toList

/-- Whitespace test of Go's unicode.IsSpace as used by strings.TrimSpace
(module.go line 183), restricted to the Latin-1 range: space, tab, newline,
vertical tab, form feed, carriage return, next line and no-break space.
Whitespace code points above U+00FF are not modelled; none appears in any
claim. -/
def goIsSpace (c : Char) : Bool :=
  c == ' ' || c == '\t' || c == '\n' || c == Char.ofNat 11 ||
    c == Char.ofNat 12 || c == '\r' || c == Char.ofNat 133 ||
    c == Char.ofNat 160

/-- Embedding of strings.TrimSpace on character lists: drop whitespace from
both ends. -/
def goTrimSpace (cs : List Char) : List Char :=
  ((cs.dropWhile goIsSpace).reverse.dropWhile goIsSpace).reverse

/-- Embedding of strings.Split(s, ",") (module.go line 181) on character
lists: split at every comma, keeping empty fields. The result always has one
more element than the number of commas, so it is never empty. -/
def splitOnComma : List Char → List (List Char)
  | [] => [[]]
  | c :: rest =>
    if c = ',' then [] :: splitOnComma rest
    else
      match splitOnComma rest with
      | [] => [[c]]
      | g :: gs => (c :: g) :: gs

/-- Embedding of the bootstrap_servers argument processing (module.go lines
180-184): split the raw directive value on commas and trim surrounding
whitespace from each item, in order. -/
def splitServers (s : String) : List String :=
  (splitOnComma s.toList).map (fun cs => String.mk (goTrimSpace cs))

/-- Caddyfile token as seen by the Dispenser: its text and the line it
appears on. A directive block is the list of its tokens; NextBlock yields
them in order, and NextArg only accepts a token on the same line as the
directive. -/
structure Tok where
  text : String
  line : Nat
deriving Repr, DecidableEq

/-- Error produced by the Dispenser's ArgErr: a directive received the
wrong number of same-line arguments. -/
def argErrMsg : String := "wrong argument count or unexpected line ending"

/-- One iteration of the NextBlock switch of UnmarshalCaddyfile (module.go
lines 140-187): reads the directive named by tok, takes its arguments from
rest, and returns the updated configuration together with the number of
argument tokens consumed. Args demands each argument on the directive's
line; the bootstrap_servers directive instead uses Next, which accepts the
following token regardless of its line. -/
def dispatch (h : KafkaHandler) (tok : Tok) (rest : List Tok) :
    Except String (KafkaHandler × Nat) :=
  if tok.text = "topic" then
    match rest with
    | a :: _ =>
      if a.line = tok.line then Except.ok ({ h with topic := a.text }, 1)
      else Except.error argErrMsg
    | [] => Except.error argErrMsg
  else if tok.text = "sasl_scram" then
    match rest with
    | a :: b :: c :: _ =>
      if a.line = tok.line ∧ b.line = tok.line ∧ c.line = tok.line then
        if a.text = "sha256" then
          Except.ok ({ h with
            saslAlgorithm := "sha256"
            saslUsername := b.text
            saslPassword := c.text
            saslAuth := true }, 3)
        else if a.text = "sha512" then
          Except.ok ({ h with
            saslAlgorithm := "sha512"
            saslUsername := b.text
            saslPassword := c.text
            saslAuth := true }, 3)
        else Except.error ("unsupported SCRAM method: " ++ a.text)
      else Except.error argErrMsg
    | _ => Except.error argErrMsg
  else if tok.text = "tls" then
    match rest with
    | a :: _ =>
      if a.line = tok.line then
        if a.text = "on" then Except.ok ({ h with tlsEnabled := true }, 1)
        else if a.text = "off" then Except.ok ({ h with tlsEnabled := false }, 1)
        else Except.error "invalid value for tls"
      else Except.error argErrMsg
    | [] => Except.error argErrMsg
  else if tok.text = "tls_no_verify" then
    Except.ok ({ h with tlsNoVerify := true }, 0)
  else if tok.text = "bootstrap_servers" then
    match rest with
    | v :: _ =>
      Except.ok ({ h with bootstrapServers := splitServers v.text }, 1)
    | [] => Except.error argErrMsg
  else Except.error ("unsupported argument: " ++ tok.text)

/-- Embedding of the NextBlock loop of UnmarshalCaddyfile (module.go lines
139-188): process the directive at the head of the token list with dispatch,
drop the argument tokens it consumed, and continue until the block ends or
an error is returned. -/
def unmarshalBlock (h : KafkaHandler) : List Tok → Except String KafkaHandler
  | [] => Except.ok h
  | tok :: rest =>
    match dispatch h tok rest with
    | Except.error e => Except.error e
    | Except.ok (h', used) => unmarshalBlock h' (rest.drop used)
termination_by toks => toks.length
decreasing_by
  simp only [List.length_cons, List.length_drop]
  omega

/-- Property that a configuration's SASL algorithm is one of the two
recognized values whenever SASL is enabled. -/
def algOk (h : KafkaHandler) : Prop :=
  h.saslAuth = true → h.saslAlgorithm = "sha256" ∨ h.saslAlgorithm = "sha512"

/-- Embedding of the tls.Config built by Provision (module.go lines 54-61):
only the InsecureSkipVerify field is ever set. -/
structure TLSConfig where
  insecureSkipVerify : Bool
deriving Repr, DecidableEq

/-- The SCRAM mechanism object produced by the external scram.Mechanism
constructor, represented by the data it is built from. -/
structure ScramMechanism where
  algorithm : String
  username : String
  password : String
deriving Repr, DecidableEq

/-- Embedding of the kafka.Transport configured by Provision (module.go
lines 51-78): an optional TLS configuration and an optional SASL
mechanism. -/
structure Transport where
  tls : Option TLSConfig
  sasl : Option ScramMechanism
deriving Repr, DecidableEq

/-- Outcome of Provision: a configured transport from a normal return, an
error return, or a crash of the whole process (a Go panic, which never
returns to the caller). -/
inductive ProvisionOutcome where
  | ok (t : Transport)
  | err (msg : String)
  | crashed (msg : String)
deriving Repr, DecidableEq

/-- Embedding of Provision (module.go lines 43-82), parameterised by the
external scram.Mechanism constructor, which runs the credentials through
stringprep and may fail. An unrecognized algorithm returns an error
(line 71); a failing mechanism construction reaches panic(err) on line 76,
which crashes the process instead of returning. -/
def provision
    (scramMechanism : String → String → String → Except String ScramMechanism)
    (h : KafkaHandler) : ProvisionOutcome :=
  let transport : Transport :=
    { tls :=
        if h.tlsEnabled then some { insecureSkipVerify := h.tlsNoVerify }
        else none
      sasl := none }
  if h.saslAuth then
    if h.saslAlgorithm = "sha256" then
      match scramMechanism "sha256" h.saslUsername h.saslPassword with
      | Except.error e => ProvisionOutcome.crashed e
      | Except.ok m => ProvisionOutcome.ok { transport with sasl := some m }
    else if h.saslAlgorithm = "sha512" then
      match scramMechanism "sha512" h.saslUsername h.saslPassword with
      | Except.error e => ProvisionOutcome.crashed e
      | Except.ok m => ProvisionOutcome.ok { transport with sasl := some m }
    else
      ProvisionOutcome.err ("invalid sasl algorithm: " ++ h.saslAlgorithm)
  else
    ProvisionOutcome.ok transport

/-- A behaviour of the external scram.Mechanism constructor in which
stringprep rejects the credentials (for example a username containing a
prohibited control character), so construction fails with an error. -/
def scramRejecting :
    String → String → String → Except String ScramMechanism :=
  fun _ _ _ => Except.error "scram: stringprep failure"

/-- JSON values, the target of json.Marshal in Handle (module.go line
118). -/
inductive Json where
  | null
  | bool (b : Bool)
  | num (n : Int)
  | str (s : String)
  | arr (elems : List Json)
  | obj (fields : List (String × Json))

/-- Embedding of the caddy CloudEvent envelope serialized by Handle
(module.go lines 118-127 and the documented message format): id, source,
specversion, type, time, datacontenttype and a structured payload. A
time.Time value is represented by its RFC3339 rendering; the payload is an
arbitrary JSON value. -/
structure CloudEvent where
  id : String
  source : String
  specversion : String
  eventType : String
  time : String
  datacontenttype : String
  data : Json

/-- The JSON object json.Marshal produces for a CloudEvent envelope, with
the field names of the documented message format. -/
def encodeEnvelope (e : CloudEvent) : Json :=
  Json.obj
    [("id", Json.str e.id), ("source", Json.str e.source),
     ("specversion", Json.str e.specversion),
     ("type", Json.str e.eventType), ("time", Json.str e.time),
     ("datacontenttype", Json.str e.datacontenttype), ("data", e.data)]

/-- Embedding of json.Marshal on the CloudEvent envelope. The envelope's
fields are strings and an already-structured JSON payload, so marshalling
always succeeds; the Except form records that Handle checks the error
(module.go lines 118-121). -/
def jsonMarshal (e : CloudEvent) : Except String Json :=
  Except.ok (encodeEnvelope e)

/-- First value bound to a key in a JSON object's field list. -/
def jsonLookup : List (String × Json) → String → Option Json
  | [], _ => none
  | (k, v) :: rest, key => if k = key then some v else jsonLookup rest key

/-- Decoder for the CloudEvent envelope: reads the seven documented fields
back out of a JSON object. -/
def decodeEnvelope (j : Json) : Option CloudEvent :=
  match j with
  | Json.obj fs =>
    match jsonLookup fs "id", jsonLookup fs "source",
        jsonLookup fs "specversion", jsonLookup fs "type",
        jsonLookup fs "time", jsonLookup fs "datacontenttype",
        jsonLookup fs "data" with
    | some (Json.str i), some (Json.str s), some (Json.str sv),
        some (Json.str ty), some (Json.str ti), some (Json.str dct),
        some d =>
      some { id := i, source := s, specversion := sv, eventType := ty,
             time := ti, datacontenttype := dct, data := d }
    | _, _, _, _, _, _, _ => none
  | _ => none

/-- Embedding of the kafka.Message built by Handle (module.go lines
123-128): key is the raw bytes of the event id (the bytes of a string are
the string itself in this model), value the serialized envelope, topic the
configured topic, and the message timestamp the event timestamp. -/
structure Message where
  key : String
  value : Json
  topic : String
  time : String

/-- Embedding of Handle (module.go lines 117-133). It serializes the
event's envelope, reporting a serialization failure synchronously, and
otherwise submits exactly one message to the external writer
(WriteMessages); the model returns that one message. -/
def handle (h : KafkaHandler) (e : CloudEvent) : Except String Message :=
  match jsonMarshal e with
  | Except.error msg =>
    Except.error ("failed to serialize event data: " ++ msg)
  | Except.ok data =>
    Except.ok { key := e.id, value := data, topic := h.topic, time := e.time }

/-- A concrete lifecycle event, shaped like the certificate-obtained
example of the documentation. -/
def sampleEvent : CloudEvent :=
  { id := "abc"
    source := "tls"
    specversion := "1.0"
    eventType := "cert_obtained"
    time := "2023-08-14T18:09:35Z"
    datacontenttype := "application/json"
    data := Json.obj [("renewal", Json.bool false)] }

/-- C2: validate succeeds exactly on the configurations satisfying the
section-3 invariants, and every configuration violating them (in particular
any violating exactly one of them) receives a ConfigError. -/
theorem validate_ok_iff_invariants (h : KafkaHandler) :
    (validate h = Except.ok () ↔ specInvariants h) ∧
      (¬ specInvariants h → ∃ e, validate h = Except.error e) := by
  constructor
  · unfold validate specInvariants
    split_ifs with h1 h2 h3 h4 h5 h6
    · simp_all [List.length_eq_zero]
    · simp_all
    · simp_all
    · simp_all
    · constructor
      · intro hcontra
        simp at hcontra
      · intro ⟨_, _, hs⟩
        rcases h6 with ⟨hne1, hne2⟩
        rcases (hs h3).2.2 with hc | hc
        · exact absurd hc hne1
        · exact absurd hc hne2
    · constructor
      · intro _
        refine ⟨?_, h2, ?_⟩
        · intro hnil
          exact h1 (by simp [hnil])
        · intro _
          refine ⟨h4, h5, ?_⟩
          by_contra hboth
          push_neg at hboth
          exact h6 hboth
      · intro _
        rfl
    · constructor
      · intro _
        refine ⟨?_, h2, ?_⟩
        · intro hnil
          exact h1 (by simp [hnil])
        · intro hs
          exact absurd hs (by simpa using h3)
      · intro _
        rfl
  · intro hbad
    cases hv : validate h with
    | ok u =>
      cases u
      unfold validate specInvariants at *
      split_ifs at hv with h1 h2 h3 h4 h5 h6
      · apply absurd hbad
        push_neg
        refine ⟨?_, h2, ?_⟩
        · intro hnil
          exact h1 (by simp [hnil])
        · intro _
          refine ⟨h4, h5, ?_⟩
          by_contra hboth
          push_neg at hboth
          exact h6 hboth
      · apply absurd hbad
        push_neg
        refine ⟨?_, h2, ?_⟩
        · intro hnil
          exact h1 (by simp [hnil])
        · intro hs
          exact absurd hs (by simpa using h3)
    | error e => exact ⟨e, rfl⟩

/-- C2 witness: concrete instances discharging the hypotheses of
validate_ok_iff_invariants at an invalid configuration. -/
theorem validate_ok_iff_invariants_witness :
    ∃ e, validate defaultHandler = Except.error e :=
  (validate_ok_iff_invariants defaultHandler).2 (by decide)

/-- C3: validate checks its rules in a fixed order and the first failure
wins: empty bootstrap_servers is reported regardless of all other fields;
an empty topic is reported whenever bootstrap_servers is non-empty; the
SASL checks run in the order username, password, algorithm and only once
the earlier rules pass. -/
theorem validate_first_failure_order (h : KafkaHandler) :
    (h.bootstrapServers.length = 0 →
      validate h = Except.error "kafka bootstrap_servers missing") ∧
    (h.bootstrapServers.length ≠ 0 → h.topic = "" →
      validate h = Except.error "kafka topic missing") ∧
    (h.bootstrapServers.length ≠ 0 → h.topic ≠ "" → h.saslAuth = true →
      h.saslUsername = "" →
      validate h = Except.error "kafka missing sasl username") ∧
    (h.bootstrapServers.length ≠ 0 → h.topic ≠ "" → h.saslAuth = true →
      h.saslUsername ≠ "" → h.saslPassword = "" →
      validate h = Except.error "kafka missing sasl username") ∧
    (h.bootstrapServers.length ≠ 0 → h.topic ≠ "" → h.saslAuth = true →
      h.saslUsername ≠ "" → h.saslPassword ≠ "" →
      h.saslAlgorithm ≠ "sha256" → h.saslAlgorithm ≠ "sha512" →
      validate h = Except.error "kafka invalid sasl algorithm") := by
  refine ⟨?_, ?_, ?_, ?_, ?_⟩ <;>
    · intros
      simp_all [validate]

/-- C3 witness: the five conjuncts of validate_first_failure_order applied
at concrete configurations, including the claim's example of a
configuration with both bootstrap_servers and topic empty, which yields
the bootstrap_servers error. -/
theorem validate_first_failure_order_witness :
    validate defaultHandler = Except.error "kafka bootstrap_servers missing" ∧
    validate { defaultHandler with bootstrapServers := ["a:1"] } =
      Except.error "kafka topic missing" ∧
    validate { defaultHandler with
      bootstrapServers := ["a:1"], topic := "t", saslAuth := true } =
      Except.error "kafka missing sasl username" ∧
    validate { defaultHandler with
      bootstrapServers := ["a:1"], topic := "t", saslAuth := true,
      saslUsername := "u" } =
      Except.error "kafka missing sasl username" ∧
    validate { defaultHandler with
      bootstrapServers := ["a:1"], topic := "t", saslAuth := true,
      saslUsername := "u", saslPassword := "p", saslAlgorithm := "md5" } =
      Except.error "kafka invalid sasl algorithm" :=
  ⟨(validate_first_failure_order defaultHandler).1 (by decide),
   (validate_first_failure_order _).2.1 (by decide) (by decide),
   (validate_first_failure_order _).2.2.1 (by decide) (by decide) (by decide)
     (by decide),
   (validate_first_failure_order _).2.2.2.1 (by decide) (by decide) (by decide)
     (by decide) (by decide),
   (validate_first_failure_order _).2.2.2.2 (by decide) (by decide) (by decide)
     (by decide) (by decide) (by decide) (by decide)⟩

/-- C9 counterexample: a configuration with SASL enabled, a non-empty
username and an empty password for which validate does not return the
"kafka missing sasl username" message, because its empty bootstrap_servers
list is reported first. -/
theorem validate_password_message_counterexample :
    (let cex : KafkaHandler := { defaultHandler with
       saslAuth := true, saslUsername := "u", saslPassword := "" }
     cex.saslAuth = true ∧ cex.saslUsername = "u" ∧ cex.saslPassword = "" ∧
       validate cex = Except.error "kafka bootstrap_servers missing" ∧
       (("kafka bootstrap_servers missing" : String) ==
         "kafka missing sasl username") = false) :=
  ⟨rfl, rfl, rfl, rfl, rfl⟩

/-- C9 (amended): for every configuration with SASL enabled, a non-empty
username, an empty password, and non-empty bootstrap_servers and topic (so
that the earlier validation rules pass), validate returns the message
"kafka missing sasl username" — the identical text used for an empty
username — and no validation error message ever contains the substring
"password". -/
theorem validate_password_reuses_username_message (h : KafkaHandler) :
    (h.bootstrapServers.length ≠ 0 → h.topic ≠ "" → h.saslAuth = true →
      h.saslUsername ≠ "" → h.saslPassword = "" →
      validate h = Except.error "kafka missing sasl username") ∧
    (∀ e, validate h = Except.error e → strContains "password" e = false) := by
  constructor
  · intros
    simp_all [validate]
  · intro e he
    unfold validate at he
    split_ifs at he <;>
      · rw [Except.error.injEq] at he
        subst he
        decide

/-- C9 witness: validate_password_reuses_username_message applied at a
concrete configuration with an empty password, and at a concrete validation
error. -/
theorem validate_password_reuses_username_message_witness :
    (validate { defaultHandler with
      bootstrapServers := ["a:1"], topic := "t", saslAuth := true,
      saslUsername := "u" } =
      Except.error "kafka missing sasl username") ∧
    strContains "password" "kafka bootstrap_servers missing" = false :=
  ⟨(validate_password_reuses_username_message _).1 (by decide) (by decide)
      (by decide) (by decide) (by decide),
   (validate_password_reuses_username_message defaultHandler).2 _ rfl⟩

/-- Helper: strings.Split never returns an empty list — there is always at
least the field before the first comma. -/
theorem one_le_splitOnComma_length (cs : List Char) :
    1 ≤ (splitOnComma cs).length := by
  induction cs with
  | nil => simp [splitOnComma]
  | cons c rest ih =>
    simp only [splitOnComma]
    by_cases hc : c = ','
    · simp [hc]
    · rw [if_neg hc]
      cases hsp : splitOnComma rest with
      | nil => simp
      | cons g gs => simp

/-- C5: the bootstrap_servers directive splits its single argument on
commas and trims surrounding whitespace from each element, producing the
addresses in input order; in particular " a:1 , b:2 " yields ["a:1", "b:2"].
The directive's argument is taken via Next, so its line is irrelevant. -/
theorem parse_bootstrap_servers_split_trim (h : KafkaHandler) (v : String)
    (l l' : Nat) (rest : List Tok) :
    unmarshalBlock h (⟨"bootstrap_servers", l⟩ :: ⟨v, l'⟩ :: rest) =
      unmarshalBlock { h with bootstrapServers := splitServers v } rest ∧
    splitServers v =
      (splitOnComma v.toList).map (fun cs => String.mk (goTrimSpace cs)) ∧
    splitServers " a:1 , b:2 " = ["a:1", "b:2"] := by
  refine ⟨?_, rfl, by decide⟩
  rw [unmarshalBlock.eq_def]
  simp [dispatch]

/-- C7: a token in directive position whose text is none of topic,
sasl_scram, tls, tls_no_verify or bootstrap_servers makes parsing fail with
the unsupported-argument error. The current configuration h is arbitrary,
so this covers every position at which the parser's directive loop can
encounter the token. -/
theorem unknown_directive_is_parse_error (h : KafkaHandler) (tok : Tok)
    (rest : List Tok)
    (h1 : tok.text ≠ "topic") (h2 : tok.text ≠ "sasl_scram")
    (h3 : tok.text ≠ "tls") (h4 : tok.text ≠ "tls_no_verify")
    (h5 : tok.text ≠ "bootstrap_servers") :
    unmarshalBlock h (tok :: rest) =
      Except.error ("unsupported argument: " ++ tok.text) := by
  rw [unmarshalBlock.eq_def]
  simp [dispatch, h1, h2, h3, h4, h5]

/-- C7 witness: an unknown directive foo appearing after a valid topic
directive is rejected with the unsupported-argument error. -/
theorem unknown_directive_is_parse_error_witness :
    unmarshalBlock defaultHandler
      [⟨"topic", 0⟩, ⟨"t", 0⟩, ⟨"foo", 1⟩, ⟨"bar", 1⟩] =
      Except.error ("unsupported argument: " ++ "foo") := by
  have hstep := unknown_directive_is_parse_error
    { defaultHandler with topic := "t" } ⟨"foo", 1⟩ [⟨"bar", 1⟩]
    (by decide) (by decide) (by decide) (by decide) (by decide)
  rw [unmarshalBlock.eq_def]
  simpa [dispatch] using hstep

/-- C8: splitting the single bootstrap_servers argument always yields at
least one element, so after the directive is seen the configured list is
never empty; parsing the directive with the empty-string argument yields
the one-element list [""], and the resulting configuration (given a topic)
passes validation even though its sole address is empty. -/
theorem bootstrap_servers_list_never_empty (h : KafkaHandler) (v : String)
    (l l' : Nat) :
    1 ≤ (splitServers v).length ∧
    (∃ h', unmarshalBlock h [⟨"bootstrap_servers", l⟩, ⟨v, l'⟩] =
        Except.ok h' ∧
      h'.bootstrapServers = splitServers v ∧
      1 ≤ h'.bootstrapServers.length) ∧
    (∃ h0, unmarshalBlock defaultHandler
        [⟨"bootstrap_servers", 0⟩, ⟨"", 0⟩] = Except.ok h0 ∧
      h0.bootstrapServers = [""] ∧
      validate { h0 with topic := "t" } = Except.ok ()) := by
  have hlen : 1 ≤ (splitServers v).length := by
    simpa [splitServers] using one_le_splitOnComma_length v.toList
  have hsplit : splitServers "" = [""] := by decide
  refine ⟨hlen, ⟨{ h with bootstrapServers := splitServers v }, ?_, rfl, hlen⟩,
    ⟨{ defaultHandler with bootstrapServers := [""] }, ?_, rfl, rfl⟩⟩
  · rw [unmarshalBlock.eq_def]
    simp [dispatch, unmarshalBlock]
  · rw [unmarshalBlock.eq_def]
    simp [dispatch, unmarshalBlock, hsplit]

/-- C4: parsing the sasl_scram directive. A sha256 or sha512 algorithm
token sets sasl_auth and records the given algorithm, username and
password; any other algorithm token fails with the unsupported-SCRAM-method
parse error; omitting the password (the block ends after the username, or
the next token sits on a later line) is a parse error, as is omitting both
the username and the password. -/
theorem parse_sasl_scram_spec (h : KafkaHandler) (a u p : String) (l : Nat)
    (rest : List Tok) :
    ((a = "sha256" ∨ a = "sha512") →
      unmarshalBlock h
          (⟨"sasl_scram", l⟩ :: ⟨a, l⟩ :: ⟨u, l⟩ :: ⟨p, l⟩ :: rest) =
        unmarshalBlock { h with
          saslAlgorithm := a
          saslUsername := u
          saslPassword := p
          saslAuth := true } rest) ∧
    (a ≠ "sha256" → a ≠ "sha512" →
      unmarshalBlock h
          (⟨"sasl_scram", l⟩ :: ⟨a, l⟩ :: ⟨u, l⟩ :: ⟨p, l⟩ :: rest) =
        Except.error ("unsupported SCRAM method: " ++ a)) ∧
    (unmarshalBlock h [⟨"sasl_scram", l⟩, ⟨a, l⟩, ⟨u, l⟩] =
      Except.error argErrMsg) ∧
    (∀ nxt rest2, Tok.line nxt ≠ l →
      unmarshalBlock h (⟨"sasl_scram", l⟩ :: ⟨a, l⟩ :: ⟨u, l⟩ :: nxt :: rest2) =
        Except.error argErrMsg) ∧
    (unmarshalBlock h [⟨"sasl_scram", l⟩, ⟨a, l⟩] = Except.error argErrMsg) := by
  refine ⟨?_, ?_, ?_, ?_, ?_⟩
  · rintro (ha | ha) <;> subst ha <;>
      · rw [unmarshalBlock.eq_def]
        simp [dispatch]
  · intro h1 h2
    rw [unmarshalBlock.eq_def]
    simp [dispatch, h1, h2]
  · rw [unmarshalBlock.eq_def]
    simp [dispatch]
  · intro nxt rest2 hline
    rw [unmarshalBlock.eq_def]
    simp [dispatch, hline]
  · rw [unmarshalBlock.eq_def]
    simp [dispatch]

/-- C4 witness: parse_sasl_scram_spec applied at concrete inputs — the
spec's example sasl_scram sha512 u p, a rejected md5 algorithm token, and a
block that ends before the password argument. -/
theorem parse_sasl_scram_spec_witness :
    (unmarshalBlock defaultHandler
        [⟨"sasl_scram", 0⟩, ⟨"sha512", 0⟩, ⟨"u", 0⟩, ⟨"p", 0⟩] =
      unmarshalBlock { defaultHandler with
        saslAlgorithm := "sha512"
        saslUsername := "u"
        saslPassword := "p"
        saslAuth := true } []) ∧
    (unmarshalBlock defaultHandler
        [⟨"sasl_scram", 0⟩, ⟨"md5", 0⟩, ⟨"u", 0⟩, ⟨"p", 0⟩] =
      Except.error ("unsupported SCRAM method: " ++ "md5")) ∧
    (unmarshalBlock defaultHandler [⟨"sasl_scram", 0⟩, ⟨"sha512", 0⟩, ⟨"u", 0⟩] =
      Except.error argErrMsg) :=
  ⟨(parse_sasl_scram_spec defaultHandler "sha512" "u" "p" 0 []).1 (Or.inr rfl),
   (parse_sasl_scram_spec defaultHandler "md5" "u" "p" 0 []).2.1
     (by decide) (by decide),
   (parse_sasl_scram_spec defaultHandler "sha512" "u" "p" 0 []).2.2.1⟩

/-- Helper: one dispatch step preserves the recognized-algorithm property.
The only directive that touches the SASL fields is sasl_scram, and it only
ever writes sha256 or sha512 before setting sasl_auth. -/
theorem dispatch_preserves_algOk (h : KafkaHandler) (tok : Tok)
    (rest : List Tok) (h' : KafkaHandler) (n : Nat) (hok : algOk h)
    (hd : dispatch h tok rest = Except.ok (h', n)) : algOk h' := by
  unfold dispatch at hd
  split_ifs at hd
  all_goals (try split at hd)
  all_goals (try split_ifs at hd)
  all_goals simp_all [algOk]
  all_goals (obtain ⟨hh, -⟩ := hd; subst hh)
  all_goals (first | exact hok | simp)

/-- Helper: the parser loop preserves the recognized-algorithm property
across a whole directive block. -/
theorem unmarshalBlock_preserves_algOk (h : KafkaHandler) (toks : List Tok) :
    ∀ h', algOk h → unmarshalBlock h toks = Except.ok h' → algOk h' := by
  induction h, toks using unmarshalBlock.induct <;> intro h' hok hp <;>
    rw [unmarshalBlock.eq_def] at hp
  · simp at hp
    subst hp
    exact hok
  · rename_i h tok rest e hd
    simp only [hd] at hp
    exact absurd hp (by simp)
  · rename_i h tok rest h2 used hd ih
    simp only [hd] at hp
    exact ih h' (dispatch_preserves_algOk h tok rest h2 used hok hd) hp

/-- Helper: on a configuration whose algorithm is recognized whenever SASL
is enabled, validate can only report the bootstrap_servers, topic or
username messages — the invalid-algorithm branch cannot fire. -/
theorem validate_error_of_algOk (h : KafkaHandler) (e : String)
    (hok : algOk h) (he : validate h = Except.error e) :
    e = "kafka bootstrap_servers missing" ∨ e = "kafka topic missing" ∨
      e = "kafka missing sasl username" := by
  unfold validate at he
  split_ifs at he with h1 h2 h3 h4 h5 h6
  · rw [Except.error.injEq] at he
    exact Or.inl he.symm
  · rw [Except.error.injEq] at he
    exact Or.inr (Or.inl he.symm)
  · rw [Except.error.injEq] at he
    exact Or.inr (Or.inr he.symm)
  · rw [Except.error.injEq] at he
    exact Or.inr (Or.inr he.symm)
  · rcases hok h3 with hc | hc
    · exact absurd hc h6.1
    · exact absurd hc h6.2

/-- C10: every configuration produced by a successful directive-block parse
starting from the zero-valued handler has a recognized SASL algorithm
whenever sasl_auth is set (the parser rejects any other algorithm token
before setting sasl_auth), so validate's invalid-algorithm branch is
unreachable: on parser-produced configurations validate can only report the
bootstrap_servers, topic or username messages. -/
theorem parsed_sasl_algorithm_recognized (toks : List Tok)
    (h' : KafkaHandler)
    (hp : unmarshalBlock defaultHandler toks = Except.ok h') :
    (h'.saslAuth = true →
      h'.saslAlgorithm = "sha256" ∨ h'.saslAlgorithm = "sha512") ∧
    (∀ e, validate h' = Except.error e →
      e = "kafka bootstrap_servers missing" ∨ e = "kafka topic missing" ∨
        e = "kafka missing sasl username") := by
  have hok : algOk h' :=
    unmarshalBlock_preserves_algOk defaultHandler toks h'
      (by simp [algOk, defaultHandler]) hp
  exact ⟨hok, fun e he => validate_error_of_algOk h' e hok he⟩

/-- C10 witness: parsed_sasl_algorithm_recognized applied to the parse of
the block sasl_scram sha256 u p, whose resulting configuration has SASL
enabled. -/
theorem parsed_sasl_algorithm_recognized_witness :
    KafkaHandler.saslAlgorithm { defaultHandler with
        saslAlgorithm := "sha256"
        saslUsername := "u"
        saslPassword := "p"
        saslAuth := true } = "sha256" ∨
    KafkaHandler.saslAlgorithm { defaultHandler with
        saslAlgorithm := "sha256"
        saslUsername := "u"
        saslPassword := "p"
        saslAuth := true } = "sha512" :=
  (parsed_sasl_algorithm_recognized
    [⟨"sasl_scram", 0⟩, ⟨"sha256", 0⟩, ⟨"u", 0⟩, ⟨"p", 0⟩] _
    (by rw [unmarshalBlock.eq_def]; simp [dispatch, unmarshalBlock])).1 rfl

/-- C1: with SASL enabled and a recognized algorithm, a failing
scram.Mechanism construction does not surface as a fatal provisioning
error: Provision reaches panic(err) on module.go line 76 and the process
crashes. The spec requires the failure to be returned as a provisioning
error instead of crashing, so this is a bug in the code. -/
theorem provision_crashes_on_mechanism_failure :
    provision scramRejecting { defaultHandler with
      bootstrapServers := ["localhost:9092"]
      topic := "t"
      saslAuth := true
      saslAlgorithm := "sha256"
      saslUsername := "u"
      saslPassword := "p" } =
      ProvisionOutcome.crashed "scram: stringprep failure" := rfl

/-- Helper: decoding the encoded envelope restores the event. -/
theorem decodeEnvelope_encodeEnvelope (e : CloudEvent) :
    decodeEnvelope (encodeEnvelope e) = some e := rfl

/-- C6: for every event whose envelope serializes successfully, Handle
produces exactly one outbound message: its key is the event identifier,
its topic the configured topic, its timestamp the event timestamp, and its
value decodes to an envelope whose id, time and data are those of the
event. -/
theorem handle_builds_expected_message (h : KafkaHandler) (e : CloudEvent)
    (v : Json) (_hser : jsonMarshal e = Except.ok v) :
    ∃ m : Message, handle h e = Except.ok m ∧ m.key = e.id ∧
      m.topic = h.topic ∧ m.time = e.time ∧
      ∃ env : CloudEvent, decodeEnvelope m.value = some env ∧
        env.id = e.id ∧ env.time = e.time ∧ env.data = e.data :=
  ⟨{ key := e.id, value := encodeEnvelope e, topic := h.topic, time := e.time },
   rfl, rfl, rfl, rfl, e, decodeEnvelope_encodeEnvelope e, rfl, rfl, rfl⟩

/-- C6 witness: handle_builds_expected_message applied to a concrete
certificate-obtained event and topic. -/
theorem handle_builds_expected_message_witness :
    ∃ m : Message,
      handle { defaultHandler with topic := "caddy-events" } sampleEvent =
        Except.ok m ∧
      m.key = sampleEvent.id ∧
      m.topic =
        KafkaHandler.topic { defaultHandler with topic := "caddy-events" } ∧
      m.time = sampleEvent.time ∧
      ∃ env : CloudEvent, decodeEnvelope m.value = some env ∧
        env.id = sampleEvent.id ∧ env.time = sampleEvent.time ∧
        env.data = sampleEvent.data :=
  handle_builds_expected_message { defaultHandler with topic := "caddy-events" }
    sampleEvent (encodeEnvelope sampleEvent) rfl
